import Mathlib

/-!
Shallow embedding of the FinancAI scoring and budgeting engine.

Sources embedded (Python):
  - "FinanceAI main/backend/finance_logic.py": safe_div, clamp, percent,
    round2, compute_financial_score, generate_budget.
  - "FinanceAI main/backend/main.py": safe_div, investment_readiness,
    compute_goal_timeline_ideal.
  - "FinancAI new/backend/finance_logic.py": compute_financial_score
    (this variant differs from the main one only in the housing_pct
    component of the output, which it multiplies by 100).

Modelling conventions: Python floats are modelled by exact rationals (ℚ);
Python round(x, 2) is modelled by rounding x*100 to the nearest integer
(round-half-up) and dividing by 100; math.ceil is Int.ceil; Python None
for optional numbers is Option.none.  All functions in the source are
total on numeric inputs, so every definition below is a plain computable
function.
-/

namespace FinancAI

/-- Input payload of the engine: the numeric fields read by
compute_financial_score and generate_budget (debt_total_balance is read
by neither, so it is omitted).  The FastAPI boundary constrains the
monetary fields to be ≥ 0 and fixes emergency_months_target = 3; here
the fields are unconstrained rationals, and claims add side conditions.
-/
structure Payload where
  monthly_income : ℚ
  fixed_expenses : ℚ
  variable_expenses : ℚ
  debt_monthly_payment : ℚ
  savings_monthly : ℚ
  savings_total : ℚ
  emergency_months_target : ℚ

/-- finance_logic.safe_div: a / b when b is non-zero, else 0.0.  (In ℚ no
exception path is reachable, matching the code's try/except that can
only fire on non-float input.) -/
def safe_div (a b : ℚ) : ℚ :=
  if b = 0 then 0 else a / b

/-- finance_logic.clamp: clamp v into [lo, hi]. -/
def clamp (v lo hi : ℚ) : ℚ :=
  max lo (min hi v)

/-- finance_logic.percent: ratio to percent. -/
def percent (x : ℚ) : ℚ :=
  x * 100

/-- finance_logic.round2: round to 2 decimals (nearest-integer rounding of
x*100; Python uses round-half-to-even on binary floats, which agrees with
round-half-up away from exact half-cent values). -/
def round2 (x : ℚ) : ℚ :=
  ((round (x * 100) : ℤ) : ℚ) / 100

/-- Step 2 of compute_financial_score: savings_rate. -/
def savings_rate (p : Payload) : ℚ :=
  safe_div p.savings_monthly p.monthly_income

/-- Step 2 of compute_financial_score: debt_to_income. -/
def debt_to_income (p : Payload) : ℚ :=
  safe_div p.debt_monthly_payment p.monthly_income

/-- Step 2 of compute_financial_score: housing_pct (a 0-1 ratio). -/
def housing_pct (p : Payload) : ℚ :=
  safe_div p.fixed_expenses p.monthly_income

/-- Step 2 of compute_financial_score: monthly_expenses = max(1.0, fixed+variable). -/
def monthly_expenses (p : Payload) : ℚ :=
  max 1 (p.fixed_expenses + p.variable_expenses)

/-- Step 2 of compute_financial_score: emergency_months. -/
def emergency_months (p : Payload) : ℚ :=
  safe_div p.savings_total (monthly_expenses p)

/-- Step 3: savings-rate sub-score as a function of the rate. -/
def savings_rate_scoreOf (rate : ℚ) : ℚ :=
  clamp ((rate / 0.20) * 100) 0 100

/-- Step 3: debt sub-score as a function of debt_to_income
(lines 85-92 of finance_logic.py, including the final clamp). -/
def debt_scoreOf (dti : ℚ) : ℚ :=
  clamp (if dti ≤ 0.10 then 100
         else if dti ≥ 0.40 then 0
         else (1 - (dti - 0.10) / 0.30) * 100) 0 100

/-- Step 3: housing sub-score as a function of the housing ratio. -/
def housing_scoreOf (h : ℚ) : ℚ :=
  clamp (if h ≤ 0.30 then 100
         else if h ≥ 0.50 then 0
         else (1 - (h - 0.30) / 0.20) * 100) 0 100

/-- Step 3: emergency sub-score (the clamp applies only on the linear branch,
as in the source). -/
def emergency_scoreOf (months target : ℚ) : ℚ :=
  if months ≥ target then 100
  else clamp ((months / target) * 100) 0 100

def savings_rate_score (p : Payload) : ℚ :=
  savings_rate_scoreOf (savings_rate p)

def debt_score (p : Payload) : ℚ :=
  debt_scoreOf (debt_to_income p)

def housing_score (p : Payload) : ℚ :=
  housing_scoreOf (housing_pct p)

def emergency_score (p : Payload) : ℚ :=
  emergency_scoreOf (emergency_months p) p.emergency_months_target

/-- Step 4: weighted total, clamped to [0,100] (pre-rounding). -/
def overall (p : Payload) : ℚ :=
  clamp (emergency_score p * 0.30 +
         debt_score p * 0.28 +
         savings_rate_score p * 0.22 +
         housing_score p * 0.20) 0 100

/-- Step 5: state label as a function of the (unrounded) overall score. -/
def stateOf (s : ℚ) : String :=
  if s < 40 then "critical"
  else if s < 60 then "vulnerable"
  else if s < 80 then "stable"
  else "strong"

/-- The components map of the score result. -/
structure Components where
  savings_rate_pct : ℚ
  debt_to_income_pct : ℚ
  housing_pct : ℚ
  emergency_fund_months : ℚ

/-- The dict returned by compute_financial_score. -/
structure ScoreResult where
  score : ℚ
  state : String
  components : Components

/-- finance_logic.compute_financial_score of the "FinanceAI main" variant.
Note that the returned components.housing_pct is round2(housing_pct):
the raw 0-1 ratio, not passed through percent, unlike the two other
_pct components (line 141 of finance_logic.py). -/
def compute_financial_score (p : Payload) : ScoreResult :=
  { score := round2 (overall p)
    state := stateOf (overall p)
    components :=
      { savings_rate_pct := round2 (percent (savings_rate p))
        debt_to_income_pct := round2 (percent (debt_to_income p))
        housing_pct := round2 (housing_pct p)
        emergency_fund_months := round2 (emergency_months p) } }

/-- compute_financial_score of the "FinancAI new" variant
(backend/finance_logic.py lines 73-82 there): identical arithmetic, but
components.housing_pct is round2(percent(housing_pct)). -/
def compute_financial_score_new (p : Payload) : ScoreResult :=
  { score := round2 (overall p)
    state := stateOf (overall p)
    components :=
      { savings_rate_pct := round2 (percent (savings_rate p))
        debt_to_income_pct := round2 (percent (debt_to_income p))
        housing_pct := round2 (percent (housing_pct p))
        emergency_fund_months := round2 (emergency_months p) } }

/-- Python str.lower, modelled as per-character lowercasing of the
character data (the mode strings involved are ASCII). -/
def str_lower (s : String) : String :=
  ⟨s.data.map Char.toLower⟩

/-- generate_budget mode normalisation: Python `(mode or "normal").lower()`
(an empty mode string is falsy and defaults to "normal"). -/
def mode_norm (mode : String) : String :=
  str_lower (if mode = "" then "normal" else mode)

/-- Target savings rate by mode: super 0.30, relaxed 0.10, otherwise 0.20. -/
def target_savings_rate (mode : String) : ℚ :=
  if mode_norm mode = "super" then 0.30
  else if mode_norm mode = "relaxed" then 0.10
  else 0.20

/-- The mode string echoed back by generate_budget (unrecognised modes
normalise to "normal"). -/
def budget_mode (mode : String) : String :=
  if mode_norm mode = "super" then "super"
  else if mode_norm mode = "relaxed" then "relaxed"
  else "normal"

/-- generate_budget: flexible_pool = max(0, income - fixed - debt). -/
def flexible_pool (p : Payload) : ℚ :=
  max 0 (p.monthly_income - p.fixed_expenses - p.debt_monthly_payment)

/-- generate_budget: ideal_savings = income * target rate. -/
def ideal_savings (p : Payload) (mode : String) : ℚ :=
  p.monthly_income * target_savings_rate mode

/-- generate_budget: recommended savings, before output rounding
(lines 177-183: unaffordable target falls back to 60% of the pool, then
a defensive clamp into [0, flexible_pool]). -/
def recommended_savings (p : Payload) (mode : String) : ℚ :=
  clamp (if ideal_savings p mode > flexible_pool p
         then flexible_pool p * 0.60
         else ideal_savings p mode) 0 (flexible_pool p)

/-- generate_budget: recommended_variable = max(0, flexible_pool - recommended_savings). -/
def recommended_variable (p : Payload) (mode : String) : ℚ :=
  max 0 (flexible_pool p - recommended_savings p mode)

/-- generate_budget: total_planned = fixed + debt + savings + variable. -/
def total_planned (p : Payload) (mode : String) : ℚ :=
  p.fixed_expenses + p.debt_monthly_payment +
    recommended_savings p mode + recommended_variable p mode

/-- generate_budget: leftover = max(0, income - total_planned). -/
def leftover (p : Payload) (mode : String) : ℚ :=
  max 0 (p.monthly_income - total_planned p mode)

/-- generate_budget: monthly_goal_capacity = max(0,savings) + max(0,leftover). -/
def monthly_goal_capacity (p : Payload) (mode : String) : ℚ :=
  max 0 (recommended_savings p mode) + max 0 (leftover p mode)

/-- The "totals" sub-dict of the budget plan (every field round2-ed). -/
structure BudgetTotals where
  income : ℚ
  fixed : ℚ
  debt : ℚ
  recommended_savings : ℚ
  recommended_variable : ℚ
  leftover : ℚ

/-- The "deltas" sub-dict of the budget plan. -/
structure BudgetDeltas where
  savings_change : ℚ
  variable_change : ℚ

/-- The "meta" sub-dict of the budget plan. -/
structure BudgetMeta where
  flexible_pool : ℚ
  target_savings_rate_pct : ℚ
  monthly_goal_capacity : ℚ

/-- The dict returned by generate_budget. -/
structure BudgetPlan where
  mode : String
  totals : BudgetTotals
  deltas : BudgetDeltas
  meta : BudgetMeta

/-- finance_logic.generate_budget ("FinanceAI main" variant, lines 147-216). -/
def generate_budget (p : Payload) (mode : String) : BudgetPlan :=
  { mode := budget_mode mode
    totals :=
      { income := round2 p.monthly_income
        fixed := round2 p.fixed_expenses
        debt := round2 p.debt_monthly_payment
        recommended_savings := round2 (recommended_savings p mode)
        recommended_variable := round2 (recommended_variable p mode)
        leftover := round2 (leftover p mode) }
    deltas :=
      { savings_change := round2 (recommended_savings p mode - p.savings_monthly)
        variable_change := round2 (recommended_variable p mode - p.variable_expenses) }
    meta :=
      { flexible_pool := round2 (flexible_pool p)
        target_savings_rate_pct := round2 (percent (target_savings_rate mode))
        monthly_goal_capacity := round2 (monthly_goal_capacity p mode) } }

/-- The dict returned by main.investment_readiness. -/
structure Readiness where
  ready : Bool
  blockers : List String
  reasons : List String

/-- main.investment_readiness (main.py lines 81-113): three independent
checks each append to blockers or reasons; ready iff no blockers. -/
def investment_readiness (score_state : String) (emergency_months : ℚ)
    (leftover : ℚ) (recommended_savings : ℚ) : Readiness :=
  let b1 : List String :=
    if emergency_months < 1 then [ "Emergency fund is below 1 month of expenses." ] else []
  let r1 : List String :=
    if emergency_months < 1 then []
    else if emergency_months < 3 then
      [ "Emergency fund is between 1–3 months (okay to start small, keep building it)." ]
    else [ "Emergency fund is 3+ months (solid foundation)." ]
  let b2 : List String :=
    if score_state = "critical" ∨ score_state = "vulnerable" then
      [ "Financial state is \x27" ++ score_state ++ "\x27 — stabilize budget before investing." ]
    else []
  let r2 : List String :=
    if score_state = "critical" ∨ score_state = "vulnerable" then []
    else [ "Financial state is \x27" ++ score_state ++ "\x27 (stable enough)." ]
  let b3 : List String :=
    if leftover < 0 then [ "Your monthly budget is negative (expenses exceed income)." ]
    else if leftover = 0 then
      (if recommended_savings > 0 then []
       else [ "No positive monthly cash flow or savings available to invest." ])
    else []
  let r3 : List String :=
    if leftover < 0 then []
    else if leftover = 0 then
      (if recommended_savings > 0 then
        [ "You have no extra leftover, but you can invest by redirecting part of your planned savings." ]
       else [])
    else [ "Positive monthly cash flow available." ]
  let blockers := b1 ++ b2 ++ b3
  { ready := blockers.isEmpty
    blockers := blockers
    reasons := r1 ++ r2 ++ r3 }

/-- The dict returned by main.compute_goal_timeline_ideal.  In the
disabled branch the capacity and months fields are None (none here);
in the enabled branch they carry numbers, with the months fields still
None when the corresponding capacity is 0. -/
structure GoalTimeline where
  enabled : Bool
  goal_cost : Option ℚ
  currency : String
  planned_monthly_capacity : Option ℚ
  current_monthly_savings : Option ℚ
  ideal_months_using_planned_savings : Option ℤ
  ideal_months_using_current_savings : Option ℤ
  notes : List String

/-- main.compute_goal_timeline_ideal (main.py lines 207-253).  Python's
`if not goal_cost or goal_cost <= 0` disables the timeline when goal_cost
is None, 0 or negative. -/
def compute_goal_timeline_ideal (goal_cost : Option ℚ) (currency : String)
    (recommended_savings : ℚ) (leftover : ℚ)
    (current_monthly_savings : ℚ) : GoalTimeline :=
  match goal_cost with
  | none =>
    { enabled := false
      goal_cost := none
      currency := currency
      planned_monthly_capacity := none
      current_monthly_savings := none
      ideal_months_using_planned_savings := none
      ideal_months_using_current_savings := none
      notes := [ "Add a goal amount to estimate an ideal timeline." ] }
  | some g =>
    if g ≤ 0 then
      { enabled := false
        goal_cost := some g
        currency := currency
        planned_monthly_capacity := none
        current_monthly_savings := none
        ideal_months_using_planned_savings := none
        ideal_months_using_current_savings := none
        notes := [ "Add a goal amount to estimate an ideal timeline." ] }
    else
      let planned_capacity := max 0 recommended_savings + max 0 leftover
      let current_capacity := max 0 current_monthly_savings
      let months_planned : Option ℤ :=
        if planned_capacity > 0 then some ⌈g / planned_capacity⌉ else none
      let months_current : Option ℤ :=
        if current_capacity > 0 then some ⌈g / current_capacity⌉ else none
      let note1 : String :=
        if planned_capacity > 0 then
          "Using your planned savings capacity, you could reach the goal in about " ++
            toString (⌈g / planned_capacity⌉ : ℤ) ++ " months."
        else
          "Your planned savings capacity is 0, so a timeline can\x27t be estimated until savings increases."
      let note2 : String :=
        if current_capacity > 0 then
          "Using your current monthly savings input, you could reach the goal in about " ++
            toString (⌈g / current_capacity⌉ : ℤ) ++ " months."
        else
          "Your current monthly savings input is 0, so a timeline can\x27t be estimated from current savings."
      { enabled := true
        goal_cost := some g
        currency := currency
        planned_monthly_capacity := some planned_capacity
        current_monthly_savings := some current_capacity
        ideal_months_using_planned_savings := months_planned
        ideal_months_using_current_savings := months_current
        notes := [ note1, note2 ] }

/-! ### Helper lemmas -/

lemma le_clamp_left (v lo hi : ℚ) : lo ≤ clamp v lo hi :=
  le_max_left lo (min hi v)

lemma clamp_le_right {v lo hi : ℚ} (h : lo ≤ hi) : clamp v lo hi ≤ hi :=
  max_le h (min_le_left hi v)

lemma clamp_of_mem {v lo hi : ℚ} (h1 : lo ≤ v) (h2 : v ≤ hi) : clamp v lo hi = v := by
  unfold clamp
  rw [min_eq_right h2, max_eq_right h1]

lemma round2_mono {x y : ℚ} (h : x ≤ y) : round2 x ≤ round2 y := by
  unfold round2
  have hr : round (x * 100) ≤ round (y * 100) := by
    rw [round_eq, round_eq]
    exact Int.floor_le_floor (by linarith)
  have : ((round (x * 100) : ℤ) : ℚ) ≤ ((round (y * 100) : ℤ) : ℚ) := by
    exact_mod_cast hr
  linarith

lemma round2_zero : round2 0 = 0 := by
  unfold round2
  norm_num

lemma round2_hundred : round2 100 = 100 := by
  unfold round2
  rw [show ((100 : ℚ) * 100) = ((10000 : ℤ) : ℚ) by norm_num, round_intCast]
  norm_num

lemma round2_nonneg {x : ℚ} (h : 0 ≤ x) : 0 ≤ round2 x := by
  have := round2_mono h
  rwa [round2_zero] at this

lemma round2_le_hundred {x : ℚ} (h : x ≤ 100) : round2 x ≤ 100 := by
  have := round2_mono h
  rwa [round2_hundred] at this

lemma flexible_pool_nonneg (p : Payload) : 0 ≤ flexible_pool p :=
  le_max_left 0 _

lemma recommended_savings_nonneg (p : Payload) (mode : String) :
    0 ≤ recommended_savings p mode :=
  le_clamp_left _ 0 _

lemma recommended_savings_le_pool (p : Payload) (mode : String) :
    recommended_savings p mode ≤ flexible_pool p :=
  clamp_le_right (flexible_pool_nonneg p)

lemma recommended_variable_eq (p : Payload) (mode : String) :
    recommended_variable p mode = flexible_pool p - recommended_savings p mode :=
  max_eq_right (by linarith [recommended_savings_le_pool p mode])

lemma income_le_total_planned (p : Payload) (mode : String) :
    p.monthly_income ≤ total_planned p mode := by
  unfold total_planned
  rw [recommended_variable_eq]
  have hfp : p.monthly_income - p.fixed_expenses - p.debt_monthly_payment ≤ flexible_pool p :=
    le_max_right 0 _
  linarith

lemma leftover_eq_zero (p : Payload) (mode : String) : leftover p mode = 0 := by
  unfold leftover
  exact max_eq_left (by linarith [income_le_total_planned p mode])

lemma mode_norm_normal : mode_norm "normal" = "normal" := by decide

lemma goal_timeline_enabled (currency : String) (rs lo cs g : ℚ) (hg : 0 < g) :
    compute_goal_timeline_ideal (some g) currency rs lo cs =
      { enabled := true
        goal_cost := some g
        currency := currency
        planned_monthly_capacity := some (max 0 rs + max 0 lo)
        current_monthly_savings := some (max 0 cs)
        ideal_months_using_planned_savings :=
          if max 0 rs + max 0 lo > 0 then some ⌈g / (max 0 rs + max 0 lo)⌉ else none
        ideal_months_using_current_savings :=
          if max 0 cs > 0 then some ⌈g / max 0 cs⌉ else none
        notes :=
          [ (if max 0 rs + max 0 lo > 0 then
              "Using your planned savings capacity, you could reach the goal in about " ++
                toString (⌈g / (max 0 rs + max 0 lo)⌉ : ℤ) ++ " months."
            else
              "Your planned savings capacity is 0, so a timeline can\x27t be estimated until savings increases."),
            (if max 0 cs > 0 then
              "Using your current monthly savings input, you could reach the goal in about " ++
                toString (⌈g / max 0 cs⌉ : ℤ) ++ " months."
            else
              "Your current monthly savings input is 0, so a timeline can\x27t be estimated from current savings.") ] } := by
  simp only [compute_goal_timeline_ideal]
  rw [if_neg (not_le.mpr hg)]

lemma investment_readiness_blockers_eq (st : String) (em lo rs : ℚ) :
    (investment_readiness st em lo rs).blockers =
      (if em < 1 then [ "Emergency fund is below 1 month of expenses." ] else []) ++
      (if st = "critical" ∨ st = "vulnerable" then
        [ "Financial state is \x27" ++ st ++ "\x27 — stabilize budget before investing." ]
       else []) ++
      (if lo < 0 then [ "Your monthly budget is negative (expenses exceed income)." ]
       else if lo = 0 then
        (if rs > 0 then [] else [ "No positive monthly cash flow or savings available to invest." ])
       else []) := rfl

lemma investment_readiness_ready_eq (st : String) (em lo rs : ℚ) :
    (investment_readiness st em lo rs).ready =
      (investment_readiness st em lo rs).blockers.isEmpty := rfl

/-- The spec's end-to-end scenario input: income 4000, fixed 1200,
variable 500, debt 200, savings 400/month, 6000 total, target 3. -/
def pA : Payload := ⟨4000, 1200, 500, 200, 400, 6000, 3⟩

/-- An over-committed input: fixed + debt exceeds income. -/
def pB : Payload := ⟨100, 200, 0, 0, 0, 0, 3⟩

/-- Income 1000 with fixed 500: housing ratio 1/2. -/
def pC : Payload := ⟨1000, 500, 0, 0, 0, 0, 3⟩

/-- An input whose unrounded overall score is 39.996, just below the
critical/vulnerable threshold. -/
def pD : Payload := ⟨10000, 5000, 0, 2929, 0, 15000, 3⟩

/-! ### Claims -/

/-- Claim C3: safe_div(a, b) returns a/b when b is non-zero and exactly 0
when b is zero; it is a total function on the (exact) numeric domain, so
no exception, infinity or NaN can arise.  The second conjunct certifies
genuine division: multiplying the result back by a non-zero b recovers a. -/
theorem safe_div_spec (a b : ℚ) :
    (b = 0 → safe_div a b = 0) ∧
    (b ≠ 0 → safe_div a b = a / b ∧ safe_div a b * b = a) := by
  refine ⟨fun h => by simp [safe_div, h], fun h => ?_⟩
  rw [safe_div, if_neg h]
  exact ⟨rfl, div_mul_cancel₀ a h⟩

/-- Witness for C3 at concrete inputs: 6/3 = 2 and division by zero yields 0. -/
theorem safe_div_spec_witness : safe_div 6 3 = 2 ∧ safe_div 5 0 = 0 := by
  constructor
  · have h := ((safe_div_spec 6 3).2 (by norm_num)).1
    rw [h]; norm_num
  · exact (safe_div_spec 5 0).1 rfl

/-- Claim C5: the state label is a pure step function of the overall score
with thresholds 40/60/80, compute_financial_score assigns it from the
overall score, and the four sample points land as stated. -/
theorem stateOf_spec :
    (∀ s : ℚ,
      (s < 40 → stateOf s = "critical") ∧
      (40 ≤ s → s < 60 → stateOf s = "vulnerable") ∧
      (60 ≤ s → s < 80 → stateOf s = "stable") ∧
      (80 ≤ s → stateOf s = "strong")) ∧
    stateOf 39.99 = "critical" ∧ stateOf 40 = "vulnerable" ∧
    stateOf 79.99 = "stable" ∧ stateOf 80 = "strong" ∧
    ∀ p : Payload, (compute_financial_score p).state = stateOf (overall p) := by
  have hstep : ∀ s : ℚ,
      (s < 40 → stateOf s = "critical") ∧
      (40 ≤ s → s < 60 → stateOf s = "vulnerable") ∧
      (60 ≤ s → s < 80 → stateOf s = "stable") ∧
      (80 ≤ s → stateOf s = "strong") := by
    intro s
    unfold stateOf
    refine ⟨fun h => if_pos h, fun h1 h2 => ?_, fun h1 h2 => ?_, fun h => ?_⟩
    · rw [if_neg (by linarith), if_pos h2]
    · rw [if_neg (by linarith), if_neg (by linarith), if_pos h2]
    · rw [if_neg (by linarith), if_neg (by linarith), if_neg (by linarith)]
  refine ⟨hstep, ?_, ?_, ?_, ?_, fun p => rfl⟩
  · exact (hstep 39.99).1 (by norm_num)
  · exact (hstep 40).2.1 le_rfl (by norm_num)
  · exact (hstep 79.99).2.2.1 (by norm_num) (by norm_num)
  · exact (hstep 80).2.2.2 le_rfl

/-- Witness for C5 at a concrete interior point: a score of 50 is "vulnerable". -/
theorem stateOf_spec_witness : stateOf 50 = "vulnerable" :=
  (stateOf_spec.1 50).2.1 (by norm_num) (by norm_num)

/-- Claim C6: the debt sub-score is 100 for ratios ≤ 0.10, 0 for ratios
≥ 0.40, follows the linear formula in between, is strictly decreasing on
[0.10, 0.40], and hits the sample values 100/0/50 at 0.10/0.40/0.25;
compute_financial_score's debt_score is this function of debt_to_income. -/
theorem debt_scoreOf_spec :
    (∀ d : ℚ, (d ≤ 0.10 → debt_scoreOf d = 100) ∧
              (0.40 ≤ d → debt_scoreOf d = 0) ∧
              (0.10 < d → d < 0.40 → debt_scoreOf d = (1 - (d - 0.10) / 0.30) * 100)) ∧
    (∀ a b : ℚ, 0.10 ≤ a → a < b → b ≤ 0.40 → debt_scoreOf b < debt_scoreOf a) ∧
    debt_scoreOf 0.10 = 100 ∧ debt_scoreOf 0.40 = 0 ∧ debt_scoreOf 0.25 = 50 ∧
    ∀ p : Payload, debt_score p = debt_scoreOf (debt_to_income p) := by
  have hlow : ∀ d : ℚ, d ≤ 0.10 → debt_scoreOf d = 100 := by
    intro d h
    unfold debt_scoreOf
    rw [if_pos h]
    exact clamp_of_mem (by norm_num) le_rfl
  have hhigh : ∀ d : ℚ, 0.40 ≤ d → debt_scoreOf d = 0 := by
    intro d h
    unfold debt_scoreOf
    rw [if_neg (by linarith), if_pos h]
    exact clamp_of_mem le_rfl (by norm_num)
  have key : ∀ d : ℚ, (1 - (d - 0.10) / 0.30) * 100 = (400 - 1000 * d) / 3 := by
    intro d
    field_simp
    ring
  have hmid : ∀ d : ℚ, 0.10 < d → d < 0.40 →
      debt_scoreOf d = (1 - (d - 0.10) / 0.30) * 100 := by
    intro d h1 h2
    unfold debt_scoreOf
    rw [if_neg (by linarith), if_neg (by linarith)]
    refine clamp_of_mem ?_ ?_ <;> rw [key] <;> rw [show (0.10:ℚ) = 1/10 by norm_num] at h1 <;>
      rw [show (0.40:ℚ) = 2/5 by norm_num] at h2 <;> linarith
  refine ⟨fun d => ⟨hlow d, hhigh d, hmid d⟩, ?_, hlow 0.10 le_rfl, hhigh 0.40 le_rfl, ?_, fun p => rfl⟩
  · intro a b ha hab hb
    rcases le_or_lt a 0.10 with ha1 | ha1
    · rw [hlow a ha1]
      rcases le_or_lt 0.40 b with hb1 | hb1
      · rw [hhigh b hb1]; norm_num
      · rw [hmid b (by linarith) hb1, key]
        rw [show (0.10:ℚ) = 1/10 by norm_num] at ha ha1
        linarith
    · rw [hmid a ha1 (by linarith)]
      rcases le_or_lt 0.40 b with hb1 | hb1
      · rw [hhigh b hb1, key]
        rw [show (0.40:ℚ) = 2/5 by norm_num] at hb hb1
        linarith
      · rw [hmid b (by linarith) hb1, key, key]
        linarith
  · rw [hmid 0.25 (by norm_num) (by norm_num)]; norm_num

/-- Witness for C6: strict decrease instantiated at the concrete pair
(0.20, 0.30) inside the linear band. -/
theorem debt_scoreOf_spec_witness : debt_scoreOf 0.30 < debt_scoreOf 0.20 :=
  debt_scoreOf_spec.2.1 0.20 0.30 (by norm_num) (by norm_num) (by norm_num)

/-- Counterexample to claim C1 as stated: on the valid input pB
(income 100, fixed 200, everything else 0, mode "normal") the returned
totals sum to 200 = fixed + debt, not to the income 100, so the budget
invariant "fixed + debt + recommended_savings + recommended_variable +
leftover == monthly_income and recommended_savings ≤ flexible_pool"
fails. -/
theorem generate_budget_sum_counterexample :
    ¬ ((generate_budget pB "normal").totals.fixed +
         (generate_budget pB "normal").totals.debt +
         (generate_budget pB "normal").totals.recommended_savings +
         (generate_budget pB "normal").totals.recommended_variable +
         (generate_budget pB "normal").totals.leftover =
         (generate_budget pB "normal").totals.income ∧
       (generate_budget pB "normal").totals.recommended_savings ≤
         (generate_budget pB "normal").meta.flexible_pool) := by
  intro hcl
  have hfp : flexible_pool pB = 0 := by
    simp [flexible_pool, pB]
    norm_num
  have hrs : recommended_savings pB "normal" = 0 := by
    have hi : ideal_savings pB "normal" = 20 := by
      simp [ideal_savings, target_savings_rate, mode_norm_normal, pB]
      norm_num
    unfold recommended_savings
    rw [hfp, hi]
    norm_num [clamp]
  have hrv : recommended_variable pB "normal" = 0 := by
    simp [recommended_variable, hfp, hrs]
  have hlo : leftover pB "normal" = 0 := leftover_eq_zero pB "normal"
  have hsum := hcl.1
  have e1 : (generate_budget pB "normal").totals.fixed = 200 := by
    show round2 pB.fixed_expenses = 200
    norm_num [pB, round2, round_eq]
  have e2 : (generate_budget pB "normal").totals.debt = 0 := by
    show round2 pB.debt_monthly_payment = 0
    norm_num [pB, round2, round_eq]
  have e3 : (generate_budget pB "normal").totals.recommended_savings = 0 := by
    show round2 (recommended_savings pB "normal") = 0
    rw [hrs, round2_zero]
  have e4 : (generate_budget pB "normal").totals.recommended_variable = 0 := by
    show round2 (recommended_variable pB "normal") = 0
    rw [hrv, round2_zero]
  have e5 : (generate_budget pB "normal").totals.leftover = 0 := by
    show round2 (leftover pB "normal") = 0
    rw [hlo, round2_zero]
  have e6 : (generate_budget pB "normal").totals.income = 100 := by
    show round2 pB.monthly_income = 100
    norm_num [pB, round2, round_eq]
  rw [e1, e2, e3, e4, e5, e6] at hsum
  norm_num at hsum

/-- Claim C1 as amended: for non-negative inputs whose fixed + debt does
not exceed income (in any budget mode), the unrounded budget components
satisfy fixed + debt + recommended_savings + recommended_variable +
leftover = monthly_income exactly, and recommended_savings ≤
flexible_pool; when fixed + debt exceeds income the sum is fixed + debt
instead.  (The returned totals are these values rounded to 2 decimals.) -/
theorem generate_budget_sum_amended (p : Payload) (mode : String)
    (h0 : 0 ≤ p.monthly_income) (h1 : 0 ≤ p.fixed_expenses)
    (h2 : 0 ≤ p.variable_expenses) (h3 : 0 ≤ p.debt_monthly_payment)
    (h4 : 0 ≤ p.savings_monthly) (h5 : 0 ≤ p.savings_total)
    (hle : p.fixed_expenses + p.debt_monthly_payment ≤ p.monthly_income) :
    p.fixed_expenses + p.debt_monthly_payment + recommended_savings p mode +
      recommended_variable p mode + leftover p mode = p.monthly_income ∧
    recommended_savings p mode ≤ flexible_pool p := by
  have hfp : flexible_pool p = p.monthly_income - p.fixed_expenses - p.debt_monthly_payment :=
    max_eq_right (by linarith)
  refine ⟨?_, recommended_savings_le_pool p mode⟩
  rw [recommended_variable_eq, leftover_eq_zero, hfp]
  ring

/-- Witness for C1 (amended) at the spec's end-to-end scenario pA with
mode "normal". -/
theorem generate_budget_sum_amended_witness :
    pA.fixed_expenses + pA.debt_monthly_payment ≤ pA.monthly_income ∧
    (pA.fixed_expenses + pA.debt_monthly_payment + recommended_savings pA "normal" +
       recommended_variable pA "normal" + leftover pA "normal" = pA.monthly_income ∧
     recommended_savings pA "normal" ≤ flexible_pool pA) :=
  ⟨by norm_num [pA],
   generate_budget_sum_amended pA "normal" (by norm_num [pA]) (by norm_num [pA])
     (by norm_num [pA]) (by norm_num [pA]) (by norm_num [pA]) (by norm_num [pA])
     (by norm_num [pA])⟩

/-- Counterexample to claim C2 as stated: on pC (income 1000, fixed 500)
the main variant reports components.housing_pct = 0.5, the raw 0-1
ratio, not the ratio times 100 (= 50). -/
theorem housing_pct_counterexample :
    ¬ ((compute_financial_score pC).components.housing_pct =
        percent (housing_pct pC)) := by
  have h1 : (compute_financial_score pC).components.housing_pct = 1/2 := by
    show round2 (housing_pct pC) = 1/2
    norm_num [housing_pct, safe_div, pC, round2, round_eq]
  have h2 : percent (housing_pct pC) = 50 := by
    norm_num [percent, housing_pct, safe_div, pC]
  rw [h1, h2]
  norm_num

/-- Claim C2 as amended: for inputs with non-zero income, the main
variant's savings_rate_pct and debt_to_income_pct components are the
internal 0-1 ratios times 100 rounded to 2 decimals, but its
housing_pct component is the raw 0-1 ratio rounded to 2 decimals; only
the "FinancAI new" variant reports housing_pct as the ratio times 100. -/
theorem components_pct_amended (p : Payload) (h : p.monthly_income ≠ 0) :
    (compute_financial_score p).components.savings_rate_pct =
      round2 (p.savings_monthly / p.monthly_income * 100) ∧
    (compute_financial_score p).components.debt_to_income_pct =
      round2 (p.debt_monthly_payment / p.monthly_income * 100) ∧
    (compute_financial_score p).components.housing_pct =
      round2 (p.fixed_expenses / p.monthly_income) ∧
    (compute_financial_score_new p).components.housing_pct =
      round2 (p.fixed_expenses / p.monthly_income * 100) := by
  have hs : savings_rate p = p.savings_monthly / p.monthly_income := by
    rw [savings_rate, safe_div, if_neg h]
  have hd : debt_to_income p = p.debt_monthly_payment / p.monthly_income := by
    rw [debt_to_income, safe_div, if_neg h]
  have hh : housing_pct p = p.fixed_expenses / p.monthly_income := by
    rw [housing_pct, safe_div, if_neg h]
  exact ⟨by show round2 (percent (savings_rate p)) = _; rw [hs, percent],
         by show round2 (percent (debt_to_income p)) = _; rw [hd, percent],
         by show round2 (housing_pct p) = _; rw [hh],
         by show round2 (percent (housing_pct p)) = _; rw [hh, percent]⟩

/-- Witness for C2 (amended) at pC: income 1000 is non-zero, and the two
variants report housing_pct = round2(1/2) and round2(50) respectively. -/
theorem components_pct_amended_witness :
    pC.monthly_income ≠ 0 ∧
    (compute_financial_score pC).components.housing_pct = round2 (pC.fixed_expenses / pC.monthly_income) ∧
    (compute_financial_score_new pC).components.housing_pct = round2 (pC.fixed_expenses / pC.monthly_income * 100) :=
  ⟨by norm_num [pC],
   (components_pct_amended pC (by norm_num [pC])).2.2.1,
   (components_pct_amended pC (by norm_num [pC])).2.2.2⟩

/-- Claim C4: for non-negative inputs the reported score equals the
weighted sum 0.30*emergency + 0.28*debt + 0.22*savings_rate +
0.20*housing clamped to [0,100] and rounded to 2 decimals, and is always
in [0,100] (exact rational arithmetic: no NaN or infinity exists). -/
theorem overall_score_spec (p : Payload)
    (h0 : 0 ≤ p.monthly_income) (h1 : 0 ≤ p.fixed_expenses)
    (h2 : 0 ≤ p.variable_expenses) (h3 : 0 ≤ p.debt_monthly_payment)
    (h4 : 0 ≤ p.savings_monthly) (h5 : 0 ≤ p.savings_total)
    (h6 : 0 ≤ p.emergency_months_target) :
    (compute_financial_score p).score =
      round2 (clamp (0.30 * emergency_score p + 0.28 * debt_score p +
                     0.22 * savings_rate_score p + 0.20 * housing_score p) 0 100) ∧
    0 ≤ (compute_financial_score p).score ∧
    (compute_financial_score p).score ≤ 100 := by
  have harg : emergency_score p * 0.30 + debt_score p * 0.28 +
      savings_rate_score p * 0.22 + housing_score p * 0.20 =
      0.30 * emergency_score p + 0.28 * debt_score p +
      0.22 * savings_rate_score p + 0.20 * housing_score p := by ring
  refine ⟨?_, ?_, ?_⟩
  · show round2 (overall p) = _
    rw [overall, harg]
  · exact round2_nonneg (le_clamp_left _ 0 100)
  · exact round2_le_hundred (clamp_le_right (by norm_num))

/-- Witness for C4 at the spec's end-to-end scenario pA (whose score the
spec works out to 89.0): the score is in [0,100]. -/
theorem overall_score_spec_witness :
    0 ≤ (compute_financial_score pA).score ∧ (compute_financial_score pA).score ≤ 100 :=
  ⟨(overall_score_spec pA (by norm_num [pA]) (by norm_num [pA]) (by norm_num [pA])
      (by norm_num [pA]) (by norm_num [pA]) (by norm_num [pA]) (by norm_num [pA])).2.1,
   (overall_score_spec pA (by norm_num [pA]) (by norm_num [pA]) (by norm_num [pA])
      (by norm_num [pA]) (by norm_num [pA]) (by norm_num [pA]) (by norm_num [pA])).2.2⟩

/-- Claim C7: the savings-goal timeline is disabled when goal_cost is
absent or ≤ 0; otherwise planned capacity is max(0,recommended_savings)
+ max(0,leftover), current capacity is max(0,current_monthly_savings),
and each months figure is the ceiling of goal_cost over its capacity
when that capacity is positive and null otherwise; goal_cost 1200 with
planned capacity 100 gives 12 months, and planned capacity 0 gives a
null months figure together with the explanatory note. -/
theorem goal_timeline_spec (currency : String) (rs lo cs : ℚ) :
    (compute_goal_timeline_ideal none currency rs lo cs).enabled = false ∧
    (∀ g : ℚ, g ≤ 0 → (compute_goal_timeline_ideal (some g) currency rs lo cs).enabled = false) ∧
    (∀ g : ℚ, 0 < g →
      (compute_goal_timeline_ideal (some g) currency rs lo cs).enabled = true ∧
      (compute_goal_timeline_ideal (some g) currency rs lo cs).planned_monthly_capacity =
        some (max 0 rs + max 0 lo) ∧
      (compute_goal_timeline_ideal (some g) currency rs lo cs).current_monthly_savings =
        some (max 0 cs) ∧
      (compute_goal_timeline_ideal (some g) currency rs lo cs).ideal_months_using_planned_savings =
        (if max 0 rs + max 0 lo > 0 then some ⌈g / (max 0 rs + max 0 lo)⌉ else none) ∧
      (compute_goal_timeline_ideal (some g) currency rs lo cs).ideal_months_using_current_savings =
        (if max 0 cs > 0 then some ⌈g / max 0 cs⌉ else none)) ∧
    (compute_goal_timeline_ideal (some 1200) currency 100 0 cs).ideal_months_using_planned_savings =
      some 12 ∧
    (compute_goal_timeline_ideal (some 1200) currency 0 0 cs).ideal_months_using_planned_savings =
      none ∧
    "Your planned savings capacity is 0, so a timeline can\x27t be estimated until savings increases."
      ∈ (compute_goal_timeline_ideal (some 1200) currency 0 0 cs).notes := by
  refine ⟨rfl, fun g hg => ?_, fun g hg => ?_, ?_, ?_, ?_⟩
  · simp only [compute_goal_timeline_ideal]
    rw [if_pos hg]
  · rw [goal_timeline_enabled currency rs lo cs g hg]
    exact ⟨rfl, rfl, rfl, rfl, rfl⟩
  · rw [goal_timeline_enabled currency 100 0 cs 1200 (by norm_num)]
    have hcap : max (0:ℚ) 100 + max 0 0 = 100 := by norm_num
    simp only [hcap]
    rw [if_pos (by norm_num)]
    norm_num
  · rw [goal_timeline_enabled currency 0 0 cs 1200 (by norm_num)]
    have hcap : max (0:ℚ) 0 + max 0 0 = 0 := by norm_num
    simp only [hcap]
    rw [if_neg (by norm_num)]
  · rw [goal_timeline_enabled currency 0 0 cs 1200 (by norm_num)]
    have hcap : max (0:ℚ) 0 + max 0 0 = 0 := by norm_num
    simp only [hcap]
    rw [if_neg (by norm_num)]
    exact List.mem_cons_self _ _

/-- Witness for C7 at concrete inputs: goal 1200, planned capacity
100 + 0, current savings 50. -/
theorem goal_timeline_spec_witness :
    (compute_goal_timeline_ideal (some 1200) "USD" 100 0 50).enabled = true ∧
    (compute_goal_timeline_ideal (some 1200) "USD" 100 0 50).ideal_months_using_planned_savings =
      some 12 :=
  ⟨((goal_timeline_spec "USD" 100 0 50).2.2.1 1200 (by norm_num)).1,
   (goal_timeline_spec "USD" 100 0 50).2.2.2.1⟩

/-- Claim C8: investment_readiness produces blockers when
emergency_months < 1, when score_state is critical or vulnerable, and
when leftover < 0; ready is true iff the blocker list is empty; and a
zero leftover with positive recommended savings is not a blocker (with
the other checks clear, readiness holds). -/
theorem investment_readiness_spec (st : String) (em lo rs : ℚ) :
    (em < 1 → (investment_readiness st em lo rs).blockers ≠ []) ∧
    ((st = "critical" ∨ st = "vulnerable") → (investment_readiness st em lo rs).blockers ≠ []) ∧
    (lo < 0 → (investment_readiness st em lo rs).blockers ≠ []) ∧
    ((investment_readiness st em lo rs).ready = true ↔
      (investment_readiness st em lo rs).blockers = []) ∧
    (lo = 0 → 0 < rs → 1 ≤ em → ¬(st = "critical" ∨ st = "vulnerable") →
      (investment_readiness st em lo rs).ready = true) := by
  refine ⟨fun h1 heq => ?_, fun h2 heq => ?_, fun h3 heq => ?_, ?_, fun h4 h5 h6 h7 => ?_⟩
  · rw [investment_readiness_blockers_eq, if_pos h1] at heq
    simp at heq
  · rw [investment_readiness_blockers_eq, if_pos h2] at heq
    simp at heq
  · rw [investment_readiness_blockers_eq, if_pos h3] at heq
    simp at heq
  · rw [investment_readiness_ready_eq]
    exact List.isEmpty_iff
  · rw [investment_readiness_ready_eq, investment_readiness_blockers_eq,
      if_neg (not_lt.mpr h6), if_neg h7, if_neg (by rw [h4]; exact lt_irrefl 0),
      if_pos h4, if_pos h5]
    rfl

/-- Witness for C8: state "stable", 3 months of emergency fund, zero
leftover, positive planned savings: ready. -/
theorem investment_readiness_spec_witness :
    (investment_readiness "stable" 3 0 500).ready = true :=
  (investment_readiness_spec "stable" 3 0 500).2.2.2.2 rfl (by norm_num) (by norm_num)
    (by decide)

/-- Claim C9: under exact arithmetic generate_budget's leftover is 0 for
every input and mode, recommended_savings + recommended_variable always
equals flexible_pool, a zero flexible_pool means fixed + debt already
meets or exceeds income, and consequently the goal timeline fed from the
returned plan has planned capacity equal to the plan's
recommended_savings alone. -/
theorem leftover_zero_spec (p : Payload) (mode : String) :
    leftover p mode = 0 ∧
    recommended_savings p mode + recommended_variable p mode = flexible_pool p ∧
    (flexible_pool p = 0 → p.monthly_income ≤ p.fixed_expenses + p.debt_monthly_payment) ∧
    (∀ g : ℚ, 0 < g → ∀ (currency : String) (cs : ℚ),
      (compute_goal_timeline_ideal (some g) currency
          (generate_budget p mode).totals.recommended_savings
          (generate_budget p mode).totals.leftover cs).planned_monthly_capacity =
        some ((generate_budget p mode).totals.recommended_savings)) := by
  refine ⟨leftover_eq_zero p mode, ?_, ?_, ?_⟩
  · rw [recommended_variable_eq]
    ring
  · intro h
    have h2 : p.monthly_income - p.fixed_expenses - p.debt_monthly_payment ≤ flexible_pool p :=
      le_max_right 0 _
    rw [h] at h2
    linarith
  · intro g hg currency cs
    have hlo : (generate_budget p mode).totals.leftover = 0 := by
      show round2 (leftover p mode) = 0
      rw [leftover_eq_zero, round2_zero]
    have hrs : 0 ≤ (generate_budget p mode).totals.recommended_savings :=
      round2_nonneg (recommended_savings_nonneg p mode)
    rw [goal_timeline_enabled currency _ _ cs g hg]
    show some _ = _
    rw [hlo, max_eq_right hrs]
    norm_num

/-- Witness for C9 at the spec scenario pA, goal 1200. -/
theorem leftover_zero_spec_witness :
    (compute_goal_timeline_ideal (some 1200) "USD"
        (generate_budget pA "normal").totals.recommended_savings
        (generate_budget pA "normal").totals.leftover 0).planned_monthly_capacity =
      some ((generate_budget pA "normal").totals.recommended_savings) :=
  (leftover_zero_spec pA "normal").2.2.2 1200 (by norm_num) "USD" 0

/-- Claim C10: on the non-negative input pD the unrounded overall score
is 39.996, so the state is chosen as "critical" while the reported
two-decimal score rounds up to 40.0, which lies in the "vulnerable"
band of the step function: the reported score and state disagree at the
threshold. -/
theorem score_state_boundary :
    (compute_financial_score pD).score = 40 ∧
    (compute_financial_score pD).state = "critical" ∧
    stateOf ((compute_financial_score pD).score) = "vulnerable" ∧
    overall pD = 39.996 := by
  have hov : overall pD = 39996/1000 := by
    norm_num [overall, emergency_score, debt_score, savings_rate_score, housing_score,
      emergency_scoreOf, debt_scoreOf, savings_rate_scoreOf, housing_scoreOf,
      emergency_months, debt_to_income, savings_rate, housing_pct, monthly_expenses,
      safe_div, clamp, pD]
  have hsc : (compute_financial_score pD).score = 40 := by
    show round2 (overall pD) = 40
    rw [hov]
    norm_num [round2, round_eq]
  refine ⟨hsc, ?_, ?_, ?_⟩
  · show stateOf (overall pD) = "critical"
    rw [hov]
    norm_num [stateOf]
  · rw [hsc]
    norm_num [stateOf]
  · rw [hov]
    norm_num

end FinancAI
